import Mathlib

/-!
Shallow embedding of the Node-RED smart solar hot-water controller
(src/solarnode.js) and verification of its specification claims.

The script runs once per inbound sensor message.  It reads flow-scoped
state (rate-limit timestamp, last control-mode string, last element-switch
timestamp, last logged setpoint record), global shared state (override
flags, relay state, weather telemetry), and the message payload
(s2/s3/s4 temperatures plus an uptime counter), and produces up to two
outputs: an element command (payload 0 or 1, or none) and a setpoint log
record.  JavaScript numbers are modelled as rationals; a sensor field is
either a number, a non-numeric string, or undefined; reads of possibly
unset variables use explicit JS-style falsy defaulting.
-/

namespace SolarHWS

attribute [local semireducible] Rat.mul Rat.inv Rat.add Rat.sub

/-- Element command payload as emitted on the first output: 0 = OFF, 1 = ON. -/
inductive Command where
  | off
  | on
deriving DecidableEq, Repr

/-- The mode names appearing as keys of `config.modes` in the source. -/
inductive ModeName where
  | morning
  | daytime
  | midday
  | evening_prep
  | evening_night
  | super_heat
deriving DecidableEq, Repr

/-- A threshold triple as stored per mode in `config.modes`. -/
structure Thresholds where
  switch_off_temp : ℚ
  switch_on_temp : ℚ
  switch_on_s4_temp : ℚ
deriving DecidableEq, Repr

/-- One entry of `config.modes`: base thresholds plus the optional
`poor_weather` variant. -/
structure ModeCfg where
  base : Thresholds
  poor_weather : Option Thresholds
deriving DecidableEq, Repr

/-- The `config.logging` block. -/
structure LoggingCfg where
  log_setpoints : Bool
  log_on_change_only : Bool
  log_weather_data : Bool
deriving DecidableEq, Repr

/-- The `config` object of the script. -/
structure Config where
  debug_enabled : Bool
  controller_interval_seconds : ℚ
  logging : LoggingCfg
  modes : ModeName → ModeCfg
  min_time_seconds : ℚ
  min_switch_interval_minutes : ℚ

/-- The mode table from src/solarnode.js lines 18-79. -/
def configModes : ModeName → ModeCfg
  | .morning => ⟨⟨44, 35, 40⟩, some ⟨44, 36, 42⟩⟩
  | .daytime => ⟨⟨40, 28, 34⟩, some ⟨40, 30, 38⟩⟩
  | .midday => ⟨⟨40, 25, 32⟩, some ⟨40, 25, 42⟩⟩
  | .evening_prep => ⟨⟨48, 40, 42⟩, none⟩
  | .evening_night => ⟨⟨42, 35, 38⟩, none⟩
  | .super_heat => ⟨⟨60, 58, 58⟩, none⟩

/-- The literal `config` of src/solarnode.js. -/
def config : Config where
  debug_enabled := true
  controller_interval_seconds := 30
  logging := ⟨true, false, true⟩
  modes := configModes
  min_time_seconds := 600
  min_switch_interval_minutes := 15

/-- A JavaScript value as it can appear in a sensor field of the message
payload: a number, a string with no numeric reading, or undefined
(also covering an absent field). -/
inductive JsVal where
  | undef
  | num (q : ℚ)
  | nonNumStr (s : String)
deriving DecidableEq, Repr

/-- Whether the value passes the `typeof x === 'number'` test. -/
def JsVal.isNum : JsVal → Bool
  | .num _ => true
  | _ => false

/-- JS comparison `v > t` for a possibly non-numeric left operand:
false for undefined and for a string with no numeric reading (NaN). -/
def jsGtNum (v : JsVal) (t : ℚ) : Bool :=
  match v with
  | .num q => decide (q > t)
  | _ => false

/-- JS comparison `v < t` for a possibly non-numeric left operand:
false for undefined and for a string with no numeric reading (NaN). -/
def jsLtNum (v : JsVal) (t : ℚ) : Bool :=
  match v with
  | .num q => decide (q < t)
  | _ => false

/-- JS comparison `v > t` for a possibly absent numeric variable. -/
def jsGtOpt (v : Option ℚ) (t : ℚ) : Bool :=
  match v with
  | some q => decide (q > t)
  | none => false

/-- JS subtraction `a - v`; none models the NaN produced when v is not a
number. -/
def jsSubL (a : ℚ) (v : JsVal) : Option ℚ :=
  match v with
  | .num q => some (a - q)
  | _ => none

/-- JS subtraction `v - a`; none models the NaN produced when v is not a
number. -/
def jsSubR (v : JsVal) (a : ℚ) : Option ℚ :=
  match v with
  | .num q => some (q - a)
  | _ => none

/-- JS `x || d` defaulting for a possibly absent number: undefined and the
falsy number 0 both yield the default. -/
def jsOrNum (v : Option ℚ) (d : ℚ) : ℚ :=
  match v with
  | none => d
  | some q => if q = 0 then d else q

/-- JS `x || d` defaulting for a possibly absent integer (timestamps,
0/1 flags). -/
def jsOrInt (v : Option Int) (d : Int) : Int :=
  match v with
  | none => d
  | some n => if n = 0 then d else n

/-- JS `x || d` defaulting for a possibly absent string: undefined and the
falsy empty string both yield the default. -/
def jsOrStr (v : Option String) (d : String) : String :=
  match v with
  | none => d
  | some s => if s = "" then d else s

/-- JS `x || d` defaulting for a possibly absent boolean. -/
def jsOrBool (v : Option Bool) (d : Bool) : Bool :=
  match v with
  | none => d
  | some b => if b then b else d

/-- The message payload fields the script consumes: `msg.payload.s2/s3/s4`
and `msg.payload.time`. -/
structure Msg where
  s2 : JsVal
  s3 : JsVal
  s4 : JsVal
  time : Option ℚ
deriving DecidableEq, Repr

/-- The weather-related global variables. -/
structure WeatherGlobals where
  weather_cloud_cover : Option ℚ
  weather_solar_irradiance : Option ℚ
  weather_forecast_next_6h : Option String
deriving DecidableEq, Repr

/-- The global shared state the script reads.  The weather globals are
wrapped in Except so that a throwing read (caught by the try/catch in
assessWeatherConditions) is representable. -/
structure Globals where
  energy_management_hws_active : Option Bool
  disable_auto_control : Option Int
  hot_water_element : Option Int
  super_heat : Option Int
  weather : Except Unit WeatherGlobals

/-- The result object of assessWeatherConditions. -/
structure Weather where
  poor_solar : Bool
  cloud_cover : ℚ
  irradiance : ℚ
  forecast : String
deriving DecidableEq, Repr

/-- assessWeatherConditions (src/solarnode.js lines 161-201): reads the
weather globals with falsy defaulting, flags poor conditions when very
cloudy with low irradiance or when the forecast is overcast, and on any
error returns safe defaults. -/
def assessWeatherConditions (r : Except Unit WeatherGlobals) : Weather :=
  match r with
  | .ok g =>
    let cloud_cover := jsOrNum g.weather_cloud_cover 0
    let solar_irradiance := jsOrNum g.weather_solar_irradiance 0
    let weather_forecast_hours_ahead := jsOrStr g.weather_forecast_next_6h ("unknown")
    let poor_conditions := false
    let poor_conditions :=
      if cloud_cover > 95 ∧ solar_irradiance < 50 then true else poor_conditions
    let poor_conditions :=
      if weather_forecast_hours_ahead = "overcast" then true else poor_conditions
    { poor_solar := poor_conditions
      cloud_cover := cloud_cover
      irradiance := solar_irradiance
      forecast := weather_forecast_hours_ahead }
  | .error _ =>
    { poor_solar := false, cloud_cover := 0, irradiance := 0, forecast := "unknown" }

/-- getTimeBasedMode (src/solarnode.js lines 141-158), as a function of the
current wall-clock hour. -/
def getTimeBasedMode (hour : Nat) : ModeName :=
  if 5 ≤ hour ∧ hour < 8 then .morning
  else if 8 ≤ hour ∧ hour < 10 then .daytime
  else if 10 ≤ hour ∧ hour < 14 then .midday
  else if 14 ≤ hour ∧ hour < 16 then .daytime
  else if 16 ≤ hour ∧ hour < 20 then .evening_prep
  else .evening_night

/-- estimateHotWaterLevel (src/solarnode.js lines 204-215). -/
def estimateHotWaterLevel (s2 s3 s4 : JsVal) : Nat :=
  let usable_temp_threshold : ℚ := 40
  let hot_water_percentage := 0
  let hot_water_percentage :=
    if jsGtNum s4 usable_temp_threshold then hot_water_percentage + 33
    else hot_water_percentage
  let hot_water_percentage :=
    if jsGtNum s3 usable_temp_threshold then hot_water_percentage + 33
    else hot_water_percentage
  let hot_water_percentage :=
    if jsGtNum s2 usable_temp_threshold then hot_water_percentage + 34
    else hot_water_percentage
  hot_water_percentage

/-- The SetpointLogRecord built by createSetpointLog, together with the
three fields the logging block adds afterwards. -/
structure SetpointLog where
  mode : ModeName
  switch_off_temp : ℚ
  switch_on_temp : ℚ
  switch_on_s4_temp : ℚ
  hot_water_level_pct : Nat
  cloud_cover_pct : ℚ
  solar_irradiance : ℚ
  weather_forecast : String
  poor_weather_mode : Bool
  s2_current : JsVal
  s3_current : JsVal
  s4_current : JsVal
  margin_to_switch_on : Option ℚ
  margin_to_switch_off : Option ℚ
  hour_of_day : Nat
  timestamp : Int
  control_state : String
  energy_mgmt_active : Bool
  disable_auto_control : Int
deriving DecidableEq, Repr

/-- createSetpointLog (src/solarnode.js lines 218-250).  The three fields
added later by the logging block are initialised to neutral values and
overwritten by the caller, mirroring the JS mutation. -/
def createSetpointLog (mode_name : ModeName) (thresholds : Thresholds)
    (weather : Weather) (hot_water_level : Nat) (s2_temp s3_temp s4_temp : JsVal)
    (hour : Nat) (now : Int) : SetpointLog where
  mode := mode_name
  switch_off_temp := thresholds.switch_off_temp
  switch_on_temp := thresholds.switch_on_temp
  switch_on_s4_temp := thresholds.switch_on_s4_temp
  hot_water_level_pct := hot_water_level
  cloud_cover_pct := weather.cloud_cover
  solar_irradiance := weather.irradiance
  weather_forecast := weather.forecast
  poor_weather_mode := weather.poor_solar
  s2_current := s2_temp
  s3_current := s3_temp
  s4_current := s4_temp
  margin_to_switch_on := jsSubL thresholds.switch_on_temp s3_temp
  margin_to_switch_off := jsSubR s3_temp thresholds.switch_off_temp
  hour_of_day := hour
  timestamp := now
  control_state := ""
  energy_mgmt_active := false
  disable_auto_control := 0

/-- The flow-scoped state the script reads and writes. -/
structure FlowState where
  last_controller_run : Option Int
  last_hws_control_state : Option String
  last_element_switch_time : Option Int
  last_setpoint_log : Option SetpointLog
deriving DecidableEq, Repr

/-- setpointsChanged (src/solarnode.js lines 253-264): true on first run,
otherwise true iff one of the five key fields differs from the stored
last log. -/
def setpointsChanged (st : FlowState) (current_log : SetpointLog) : Bool :=
  match st.last_setpoint_log with
  | none => true
  | some last_log =>
    decide (last_log.mode ≠ current_log.mode ∨
      last_log.switch_off_temp ≠ current_log.switch_off_temp ∨
      last_log.switch_on_temp ≠ current_log.switch_on_temp ∨
      last_log.switch_on_s4_temp ≠ current_log.switch_on_s4_temp ∨
      last_log.poor_weather_mode ≠ current_log.poor_weather_mode)

/-- monitorControlState (src/solarnode.js lines 108-131): derives the
control-state string from the energy-management flag and stores it when it
differs from the previous invocation's value. -/
def monitorControlState (g : Globals) (st : FlowState) : String × FlowState :=
  let energyMgmtActive := jsOrBool g.energy_management_hws_active false
  let controlState := if energyMgmtActive then "ENERGY_MGMT" else "AUTO_CONTROL"
  let lastState := jsOrStr st.last_hws_control_state ("AUTO_CONTROL")
  if controlState ≠ lastState then
    (controlState, { st with last_hws_control_state := some controlState })
  else
    (controlState, st)

/-- Mode and threshold resolution as performed inside main
(src/solarnode.js lines 302-329): super-heat override, else time-based mode
with the poor-weather variant applied to the morning and daytime modes. -/
def resolveEngine (cfg : Config) (g : Globals) (hour : Nat) : ModeName × Thresholds :=
  let super_heat := jsOrInt g.super_heat 0
  if super_heat = 1 then
    (.super_heat, (cfg.modes .super_heat).base)
  else
    let mode_name := getTimeBasedMode hour
    let weather := assessWeatherConditions g.weather
    if (mode_name = .morning ∨ mode_name = .daytime) ∧ weather.poor_solar then
      (mode_name, ((cfg.modes mode_name).poor_weather).getD (cfg.modes mode_name).base)
    else
      (mode_name, (cfg.modes mode_name).base)

/-- main (src/solarnode.js lines 271-391): returns the element command (if
any) and the updated flow state (the element-switch timestamp is stamped
exactly when a command is emitted). -/
def mainLogic (cfg : Config) (g : Globals) (m : Msg) (now : Int) (hour : Nat)
    (st : FlowState) : Option Command × FlowState :=
  let disable_auto_control := jsOrInt g.disable_auto_control 0
  let hot_water_element := jsOrInt g.hot_water_element 0
  if disable_auto_control = 1 then
    (none, st)
  else
    match m.s2, m.s3, m.s4 with
    | .num _, .num s3_temp, .num s4_temp =>
      let thresholds := (resolveEngine cfg g hour).2
      if hot_water_element = 1 ∧ s3_temp > thresholds.switch_off_temp then
        if ((now - jsOrInt st.last_element_switch_time 0 : Int) : ℚ) / (1000 * 60) <
            cfg.min_switch_interval_minutes then
          (none, st)
        else
          (some .off, { st with last_element_switch_time := some now })
      else if hot_water_element = 0 ∧
          jsGtOpt m.time cfg.min_time_seconds = true ∧
          s3_temp < thresholds.switch_on_temp ∧
          s4_temp < thresholds.switch_on_s4_temp then
        if ((now - jsOrInt st.last_element_switch_time 0 : Int) : ℚ) / (1000 * 60) <
            cfg.min_switch_interval_minutes then
          (none, st)
        else
          (some .on, { st with last_element_switch_time := some now })
      else
        (none, st)
    | _, _, _ => (none, st)

/-- Threshold resolution as performed inside the setpoint-logging block
(src/solarnode.js lines 416-427): like the engine but with the
poor-weather variant also applied to the midday mode. -/
def resolveLogger (cfg : Config) (g : Globals) (hour : Nat) (weather : Weather) :
    Thresholds :=
  let super_heat := jsOrInt g.super_heat 0
  if super_heat = 1 then
    (cfg.modes .super_heat).base
  else
    let time_mode := getTimeBasedMode hour
    if (time_mode = .morning ∨ time_mode = .daytime ∨ time_mode = .midday) ∧
        weather.poor_solar then
      ((cfg.modes time_mode).poor_weather).getD (cfg.modes time_mode).base
    else
      (cfg.modes time_mode).base

/-- The record the setpoint-logging block builds (src/solarnode.js lines
406-442), or none when a sensor field is undefined. -/
def buildSetpointLog (cfg : Config) (g : Globals) (m : Msg) (now : Int)
    (hour : Nat) (controlState : String) : Option SetpointLog :=
  let super_heat := jsOrInt g.super_heat 0
  let mode_name := if super_heat = 1 then ModeName.super_heat else getTimeBasedMode hour
  let weather := assessWeatherConditions g.weather
  let hot_water_level := estimateHotWaterLevel m.s2 m.s3 m.s4
  let current_thresholds := resolveLogger cfg g hour weather
  if m.s2 ≠ JsVal.undef ∧ m.s3 ≠ JsVal.undef ∧ m.s4 ≠ JsVal.undef then
    let base := createSetpointLog mode_name current_thresholds weather
      hot_water_level m.s2 m.s3 m.s4 hour now
    some { base with
      control_state := controlState
      energy_mgmt_active := jsOrBool g.energy_management_hws_active false
      disable_auto_control := jsOrInt g.disable_auto_control 0 }
  else
    none

/-- The setpoint-logging block (src/solarnode.js lines 401-470): returns
the emitted record (if any) and the updated flow state (the stored last
log is updated only in change-only mode and only on emission). -/
def loggingBlock (cfg : Config) (g : Globals) (m : Msg) (now : Int) (hour : Nat)
    (controlState : String) (st : FlowState) : Option SetpointLog × FlowState :=
  if cfg.logging.log_setpoints then
    match buildSetpointLog cfg g m now hour controlState with
    | some setpoint_log =>
      if cfg.logging.log_on_change_only then
        if setpointsChanged st setpoint_log then
          (some setpoint_log, { st with last_setpoint_log := some setpoint_log })
        else
          (none, st)
      else
        (some setpoint_log, st)
    | none => (none, st)
  else
    (none, st)

/-- The outputs and final flow state of one script invocation. -/
structure InvocationResult where
  command : Option Command
  setpointLog : Option SetpointLog
  state : FlowState
deriving DecidableEq, Repr

/-- The message as the setpoint-logging block sees it.  When main emits a
command it first assigns msg.payload = 0 or 1 (src/solarnode.js lines 351
and 377), so every later field read on the payload (lines 411-413) yields
undefined; when no command is emitted the payload still carries the sensor
readings. -/
def payloadAfter (cmd : Option Command) (m : Msg) : Msg :=
  match cmd with
  | none => m
  | some _ => { s2 := JsVal.undef, s3 := JsVal.undef, s4 := JsVal.undef, time := none }

/-- One whole invocation of the script (src/solarnode.js lines 88-473):
rate-limit gate, control-state monitor, main control logic, then the
setpoint-logging block, which reads the payload as left behind by main. -/
def runInvocation (cfg : Config) (g : Globals) (m : Msg) (now : Int) (hour : Nat)
    (st : FlowState) : InvocationResult :=
  let last_run := jsOrInt st.last_controller_run 0
  let min_interval_ms := cfg.controller_interval_seconds * 1000
  if ((now - last_run : Int) : ℚ) < min_interval_ms then
    { command := none, setpointLog := none, state := st }
  else
    let st1 : FlowState := { st with last_controller_run := some now }
    let mc := monitorControlState g st1
    let mr := mainLogic cfg g m now hour mc.2
    let lr := loggingBlock cfg g (payloadAfter mr.1 m) now hour mc.1 mr.2
    { command := mr.1, setpointLog := lr.1, state := lr.2 }

/-- The inputs of one invocation, for reasoning about sequences of
invocations. -/
structure Invocation where
  g : Globals
  m : Msg
  now : Int
  hour : Nat

/-- Run a sequence of invocations from an initial flow state, recording
each invocation's timestamp and emitted command. -/
def runTrace (cfg : Config) (st : FlowState) :
    List Invocation → List (Int × Option Command)
  | [] => []
  | i :: rest =>
    let r := runInvocation cfg i.g i.m i.now i.hour st
    (i.now, r.command) :: runTrace cfg r.state rest

/-- The threshold triple recorded in a setpoint log record. -/
def logThresholds (r : SetpointLog) : Thresholds :=
  ⟨r.switch_off_temp, r.switch_on_temp, r.switch_on_s4_temp⟩

/-- The five key fields compared by setpointsChanged differ between two
records. -/
def keyFieldsDiffer (a b : SetpointLog) : Prop :=
  a.mode ≠ b.mode ∨ a.switch_off_temp ≠ b.switch_off_temp ∨
  a.switch_on_temp ≠ b.switch_on_temp ∨ a.switch_on_s4_temp ≠ b.switch_on_s4_temp ∨
  a.poor_weather_mode ≠ b.poor_weather_mode

instance : Inhabited SetpointLog :=
  ⟨createSetpointLog ModeName.morning ⟨0, 0, 0⟩
    { poor_solar := false, cloud_cover := 0, irradiance := 0, forecast := "" } 0
    JsVal.undef JsVal.undef JsVal.undef 0 0⟩

/-- The shipped configuration with the change-only logging toggle enabled
(the toggle is part of the configuration surface). -/
def cfgChangeOnly : Config :=
  { config with logging := { config.logging with log_on_change_only := true } }

/-- Flow state before the first-ever invocation: nothing stored yet. -/
def initialFlowState : FlowState := ⟨none, none, none, none⟩

/-- Flow state whose rate-limit timestamp is 4 seconds in the past. -/
def stRecent : FlowState := ⟨some 1000, none, none, none⟩

/-- Example globals: relay off, no overrides, bland weather. -/
def exG0 : Globals := ⟨none, none, some 0, none, Except.ok ⟨none, none, none⟩⟩

/-- Example message: cold tank, uptime past the minimum. -/
def exM0 : Msg := ⟨JsVal.num 30, JsVal.num 20, JsVal.num 30, some 700⟩

/-- Example globals: relay on, no overrides, bland weather. -/
def exG1 : Globals := ⟨none, none, some 1, none, Except.ok ⟨none, none, none⟩⟩

/-- Example message: hot tank, uptime past the minimum. -/
def exM1 : Msg := ⟨JsVal.num 50, JsVal.num 50, JsVal.num 50, some 700⟩

/-- Example globals with an overcast forecast and no other state. -/
def c1G : Globals := ⟨none, none, none, none, Except.ok ⟨none, none, some ("overcast")⟩⟩

/-- Example message with all sensors at 30 degrees. -/
def c1M : Msg := ⟨JsVal.num 30, JsVal.num 30, JsVal.num 30, some 700⟩

/-- The setpoint record emitted at noon with an overcast forecast. -/
def c1Log : SetpointLog :=
  ((runInvocation config c1G c1M 1000000000 12 initialFlowState).setpointLog).iget

/-- Example message whose s3 is a non-numeric string. -/
def c2M : Msg := ⟨JsVal.num 30, JsVal.nonNumStr ("not a number"), JsVal.num 30, some 700⟩

/-- Example message whose s3 is undefined. -/
def c2MU : Msg := ⟨JsVal.num 30, JsVal.undef, JsVal.num 30, some 700⟩

/-- A switch-on invocation at noon. -/
def c3Inv1 : Invocation := ⟨exG0, exM0, 1000001000000, 12⟩

/-- A switch-off invocation 20 minutes later. -/
def c3Inv2 : Invocation := ⟨exG1, exM1, 1000002200000, 12⟩

/-- The record built on a first, command-free invocation under change-only
logging (sensors at 30 degrees trigger neither switch branch). -/
def c6Log : SetpointLog :=
  (buildSetpointLog cfgChangeOnly exG0 c1M 1000000000 12
    ((monitorControlState exG0
      { initialFlowState with last_controller_run := some 1000000000 }).1)).iget

/-- Example globals with the energy-management flag raised but auto control
not disabled, relay on. -/
def c9G : Globals := ⟨some true, none, some 1, none, Except.ok ⟨none, none, none⟩⟩

/-- Flow state whose element-switch timestamp is one minute in the past at
time 1000000000. -/
def c9St : FlowState := ⟨none, none, some 999940000, none⟩

/-- Example globals with the relay-state variable entirely absent. -/
def c10G : Globals := ⟨none, none, none, none, Except.ok ⟨none, none, none⟩⟩

/-!
### Structural lemmas about the embedded controller
-/

/-- Falsy defaulting of a stored timestamp is the identity when the default
is 0. -/
theorem jsOrInt_some_zero (n : Int) : jsOrInt (some n) 0 = n := by
  show (if n = 0 then (0 : Int) else n) = n
  split_ifs with h
  · exact h.symm
  · rfl

/-- The control-state monitor touches no flow field other than the stored
control-state string. -/
theorem monitor_preserves (g : Globals) (st : FlowState) :
    (monitorControlState g st).2.last_controller_run = st.last_controller_run ∧
    (monitorControlState g st).2.last_element_switch_time = st.last_element_switch_time ∧
    (monitorControlState g st).2.last_setpoint_log = st.last_setpoint_log := by
  simp only [monitorControlState]
  split_ifs <;> exact ⟨rfl, rfl, rfl⟩

/-- main either emits nothing and leaves the flow state alone, or emits a
command, stamps the element-switch timestamp with now, and did so only
because the anti-cycling interval had elapsed. -/
theorem mainLogic_cases (cfg : Config) (g : Globals) (m : Msg) (now : Int)
    (hour : Nat) (st : FlowState) :
    mainLogic cfg g m now hour st = (none, st) ∨
    ∃ c, mainLogic cfg g m now hour st =
        (some c, { st with last_element_switch_time := some now }) ∧
      cfg.min_switch_interval_minutes ≤
        ((now - jsOrInt st.last_element_switch_time 0 : Int) : ℚ) / (1000 * 60) := by
  simp only [mainLogic]
  split
  · exact Or.inl rfl
  · split
    · split_ifs <;>
        first
          | exact Or.inl rfl
          | exact Or.inr ⟨_, rfl, le_of_not_lt (by assumption)⟩
    · exact Or.inl rfl

/-- main emits the ON command only when s4 is numeric and strictly below the
switch_on_s4_temp of the engine-resolved thresholds. -/
theorem mainLogic_on_s4 (cfg : Config) (g : Globals) (m : Msg) (now : Int)
    (hour : Nat) (st : FlowState)
    (h : (mainLogic cfg g m now hour st).1 = some Command.on) :
    jsLtNum m.s4 (resolveEngine cfg g hour).2.switch_on_s4_temp = true := by
  obtain ⟨s2, s3, s4, time⟩ := m
  simp only [mainLogic] at h
  split at h
  · simp at h
  · split at h
    · split_ifs at h <;> simp_all [jsLtNum]
    · simp at h

/-- main emits the OFF command only when the shared relay-state variable
read with falsy defaulting equals 1. -/
theorem mainLogic_off_relay (cfg : Config) (g : Globals) (m : Msg) (now : Int)
    (hour : Nat) (st : FlowState)
    (h : (mainLogic cfg g m now hour st).1 = some Command.off) :
    jsOrInt g.hot_water_element 0 = 1 := by
  obtain ⟨s2, s3, s4, time⟩ := m
  simp only [mainLogic] at h
  split at h
  · simp at h
  · split at h
    · split_ifs at h <;> simp_all
    · simp at h

/-- main emits no command when one of s2/s3/s4 fails the numeric
validation. -/
theorem mainLogic_invalid (cfg : Config) (g : Globals) (m : Msg) (now : Int)
    (hour : Nat) (st : FlowState)
    (h : ¬ (m.s2.isNum = true ∧ m.s3.isNum = true ∧ m.s4.isNum = true)) :
    (mainLogic cfg g m now hour st).1 = none := by
  obtain ⟨s2, s3, s4, time⟩ := m
  cases s2 <;> cases s3 <;> cases s4 <;>
    simp_all [mainLogic, JsVal.isNum]

/-- Whatever the logging block emits is exactly the record built by
buildSetpointLog. -/
theorem loggingBlock_emits (cfg : Config) (g : Globals) (m : Msg) (now : Int)
    (hour : Nat) (cs : String) (st : FlowState) (log : SetpointLog)
    (h : (loggingBlock cfg g m now hour cs st).1 = some log) :
    buildSetpointLog cfg g m now hour cs = some log := by
  simp only [loggingBlock] at h
  split at h
  · split at h
    · split_ifs at h <;> simp_all
    · simp at h
  · simp at h

/-- The logging block either leaves the flow state alone or stores exactly
the record it emits. -/
theorem loggingBlock_cases (cfg : Config) (g : Globals) (m : Msg) (now : Int)
    (hour : Nat) (cs : String) (st : FlowState) :
    (loggingBlock cfg g m now hour cs st).2 = st ∨
    ∃ log, loggingBlock cfg g m now hour cs st =
        (some log, { st with last_setpoint_log := some log }) := by
  simp only [loggingBlock]
  split
  · split
    · split_ifs <;>
        first
          | exact Or.inl rfl
          | exact Or.inr ⟨_, rfl⟩
    · exact Or.inl rfl
  · exact Or.inl rfl

/-- The logging block never writes the element-switch timestamp. -/
theorem loggingBlock_preserves_switch (cfg : Config) (g : Globals) (m : Msg)
    (now : Int) (hour : Nat) (cs : String) (st : FlowState) :
    (loggingBlock cfg g m now hour cs st).2.last_element_switch_time =
      st.last_element_switch_time := by
  rcases loggingBlock_cases cfg g m now hour cs st with h | ⟨lg, h⟩ <;> rw [h]

/-- The logging block never writes the rate-limit timestamp. -/
theorem loggingBlock_preserves_run (cfg : Config) (g : Globals) (m : Msg)
    (now : Int) (hour : Nat) (cs : String) (st : FlowState) :
    (loggingBlock cfg g m now hour cs st).2.last_controller_run =
      st.last_controller_run := by
  rcases loggingBlock_cases cfg g m now hour cs st with h | ⟨lg, h⟩ <;> rw [h]

/-- With change-only logging disabled the logging block never writes the
flow state. -/
theorem loggingBlock_noChangeOnly (cfg : Config)
    (hc : cfg.logging.log_on_change_only = false) (g : Globals) (m : Msg)
    (now : Int) (hour : Nat) (cs : String) (st : FlowState) :
    (loggingBlock cfg g m now hour cs st).2 = st := by
  simp only [loggingBlock, hc]
  split
  · split <;> simp
  · rfl

/-- With change-only logging enabled and a record built, the logging block
emits and stores iff setpointsChanged holds. -/
theorem loggingBlock_changeOnly (cfg : Config)
    (hs : cfg.logging.log_setpoints = true)
    (hc : cfg.logging.log_on_change_only = true) (g : Globals) (m : Msg)
    (now : Int) (hour : Nat) (cs : String) (st : FlowState) (log : SetpointLog)
    (hb : buildSetpointLog cfg g m now hour cs = some log) :
    loggingBlock cfg g m now hour cs st =
      (if setpointsChanged st log then
        (some log, { st with last_setpoint_log := some log })
      else (none, st)) := by
  simp [loggingBlock, hs, hc, hb]

/-- No record is built when a sensor field is undefined. -/
theorem buildSetpointLog_none (cfg : Config) (g : Globals) (m : Msg) (now : Int)
    (hour : Nat) (cs : String)
    (h : m.s2 = JsVal.undef ∨ m.s3 = JsVal.undef ∨ m.s4 = JsVal.undef) :
    buildSetpointLog cfg g m now hour cs = none := by
  have hc : ¬ (m.s2 ≠ JsVal.undef ∧ m.s3 ≠ JsVal.undef ∧ m.s4 ≠ JsVal.undef) := by
    tauto
  simp [buildSetpointLog, hc]

/-- A record is built whenever all three sensor fields are defined. -/
theorem buildSetpointLog_isSome (cfg : Config) (g : Globals) (m : Msg)
    (now : Int) (hour : Nat) (cs : String) (h2 : m.s2 ≠ JsVal.undef)
    (h3 : m.s3 ≠ JsVal.undef) (h4 : m.s4 ≠ JsVal.undef) :
    (buildSetpointLog cfg g m now hour cs).isSome = true := by
  simp [buildSetpointLog, h2, h3, h4]

/-- The threshold triple recorded by the logging block is the one produced
by the logger-side resolution rule. -/
theorem buildSetpointLog_triple (cfg : Config) (g : Globals) (m : Msg)
    (now : Int) (hour : Nat) (cs : String) (log : SetpointLog)
    (h : buildSetpointLog cfg g m now hour cs = some log) :
    logThresholds log = resolveLogger cfg g hour (assessWeatherConditions g.weather) := by
  simp only [buildSetpointLog] at h
  split_ifs at h <;>
    first
      | exact Option.noConfusion h
      | (simp only [Option.some.injEq] at h
         subst h
         rfl)

/-- An invocation that emits a command did so after the anti-cycling
interval had elapsed since the stored element-switch timestamp, and stamps
that timestamp with now. -/
theorem cmdSome_spec (cfg : Config) (g : Globals) (m : Msg) (now : Int)
    (hour : Nat) (st : FlowState) (c : Command)
    (h : (runInvocation cfg g m now hour st).command = some c) :
    cfg.min_switch_interval_minutes ≤
      ((now - jsOrInt st.last_element_switch_time 0 : Int) : ℚ) / (1000 * 60) ∧
    (runInvocation cfg g m now hour st).state.last_element_switch_time = some now := by
  by_cases hrl : ((now - jsOrInt st.last_controller_run 0 : Int) : ℚ) <
      cfg.controller_interval_seconds * 1000
  · simp only [runInvocation, if_pos hrl] at h
    exact Option.noConfusion h
  · simp only [runInvocation, if_neg hrl] at h ⊢
    rcases mainLogic_cases cfg g m now hour
        (monitorControlState g { st with last_controller_run := some now }).2 with
      hml | ⟨c2, hml, hgap⟩
    · rw [hml] at h
      exact Option.noConfusion h
    · have hfield : (monitorControlState g
          { st with last_controller_run := some now }).2.last_element_switch_time =
            st.last_element_switch_time :=
        (monitor_preserves g _).2.1

      refine ⟨?_, ?_⟩
      · rw [hfield] at hgap
        exact hgap
      · rw [hml]
        rw [loggingBlock_preserves_switch]

/-- An invocation that emits no command leaves the element-switch timestamp
untouched. -/
theorem cmdNone_spec (cfg : Config) (g : Globals) (m : Msg) (now : Int)
    (hour : Nat) (st : FlowState)
    (h : (runInvocation cfg g m now hour st).command = none) :
    (runInvocation cfg g m now hour st).state.last_element_switch_time =
      st.last_element_switch_time := by
  by_cases hrl : ((now - jsOrInt st.last_controller_run 0 : Int) : ℚ) <
      cfg.controller_interval_seconds * 1000
  · simp only [runInvocation, if_pos hrl]
  · simp only [runInvocation, if_neg hrl] at h ⊢
    rcases mainLogic_cases cfg g m now hour
        (monitorControlState g { st with last_controller_run := some now }).2 with
      hml | ⟨c2, hml, _⟩
    · rw [hml, loggingBlock_preserves_switch]
      exact (monitor_preserves g _).2.1
    · rw [hml] at h
      exact Option.noConfusion h

/-- With the shipped configuration (change-only logging disabled) no
invocation ever rewrites the stored last setpoint record. -/
theorem stored_log_const (g : Globals) (m : Msg) (now : Int) (hour : Nat)
    (st : FlowState) :
    (runInvocation config g m now hour st).state.last_setpoint_log =
      st.last_setpoint_log := by
  by_cases hrl : ((now - jsOrInt st.last_controller_run 0 : Int) : ℚ) <
      config.controller_interval_seconds * 1000
  · simp only [runInvocation, if_pos hrl]
  · simp only [runInvocation, if_neg hrl]
    rw [loggingBlock_noChangeOnly config rfl]
    rcases mainLogic_cases config g m now hour
        (monitorControlState g { st with last_controller_run := some now }).2 with
      hml | ⟨c2, hml, _⟩
    · rw [hml]
      exact (monitor_preserves g _).2.2
    · rw [hml]
      exact (monitor_preserves g _).2.2

/-- On a pass that proceeds, the rate-limit timestamp ends up stamped with
now, whatever the rest of the pass does. -/
theorem proceed_stamps (cfg : Config) (g : Globals) (m : Msg) (now : Int)
    (hour : Nat) (st : FlowState)
    (h : ¬ ((now - jsOrInt st.last_controller_run 0 : Int) : ℚ) <
      cfg.controller_interval_seconds * 1000) :
    (runInvocation cfg g m now hour st).state.last_controller_run = some now := by
  simp only [runInvocation, if_neg h]
  rw [loggingBlock_preserves_run]
  rcases mainLogic_cases cfg g m now hour
      (monitorControlState g { st with last_controller_run := some now }).2 with
    hml | ⟨c2, hml, _⟩ <;> rw [hml] <;>
      exact (monitor_preserves g _).1

/-- Unfolding equation for runTrace on a cons cell. -/
theorem runTrace_cons (cfg : Config) (st : FlowState) (i : Invocation)
    (rest : List Invocation) :
    runTrace cfg st (i :: rest) =
      (i.now, (runInvocation cfg i.g i.m i.now i.hour st).command) ::
        runTrace cfg (runInvocation cfg i.g i.m i.now i.hour st).state rest := rfl

/-- Once the element-switch timestamp holds t1, the next emitted command in
the remaining trace is at least the anti-cycling interval later. -/
theorem gap_after_emit (cfg : Config) :
    ∀ (invs : List Invocation) (st : FlowState) (t1 : Int)
      (b d : List (Int × Option Command)) (t2 : Int) (c2 : Command),
      st.last_element_switch_time = some t1 →
      runTrace cfg st invs = b ++ (t2, some c2) :: d →
      (∀ p ∈ b, p.2 = (none : Option Command)) →
      cfg.min_switch_interval_minutes ≤ ((t2 - t1 : Int) : ℚ) / (1000 * 60) := by
  intro invs
  induction invs with
  | nil =>
    intro st t1 b d t2 c2 _ htr _
    simp [runTrace] at htr
  | cons i rest ih =>
    intro st t1 b d t2 c2 hlast htr hb
    rw [runTrace_cons] at htr
    cases b with
    | nil =>
      rw [List.nil_append] at htr
      injection htr with hhead _
      have hn : i.now = t2 := congrArg Prod.fst hhead
      have hc : (runInvocation cfg i.g i.m i.now i.hour st).command = some c2 :=
        congrArg Prod.snd hhead
      have hg := (cmdSome_spec cfg i.g i.m i.now i.hour st c2 hc).1
      rw [hlast, jsOrInt_some_zero, hn] at hg
      exact hg
    | cons p b2 =>
      rw [List.cons_append] at htr
      injection htr with hhead htail
      have hp : p.2 = (none : Option Command) := hb p (by simp)
      have hc : (runInvocation cfg i.g i.m i.now i.hour st).command = none := by
        rw [← hhead] at hp
        exact hp
      have hpres := cmdNone_spec cfg i.g i.m i.now i.hour st hc
      exact ih (runInvocation cfg i.g i.m i.now i.hour st).state t1 b2 d t2 c2
        (hpres.trans hlast) htail (fun q hq => hb q (by simp [hq]))

/-- When no record is built the logging block emits nothing and leaves the
flow state alone. -/
theorem loggingBlock_none_build (cfg : Config) (g : Globals) (m : Msg)
    (now : Int) (hour : Nat) (cs : String) (st : FlowState)
    (h : buildSetpointLog cfg g m now hour cs = none) :
    loggingBlock cfg g m now hour cs st = (none, st) := by
  simp only [loggingBlock, h]
  split <;> rfl

/-- With no stored record setpointsChanged reports a change. -/
theorem setpointsChanged_of_none (st : FlowState) (log : SetpointLog)
    (h : st.last_setpoint_log = none) : setpointsChanged st log = true := by
  simp [setpointsChanged, h]

/-- With a stored record setpointsChanged is exactly the five-field
difference test. -/
theorem setpointsChanged_some_iff (st : FlowState) (log prev : SetpointLog)
    (h : st.last_setpoint_log = some prev) :
    setpointsChanged st log = true ↔ keyFieldsDiffer prev log := by
  simp [setpointsChanged, h, keyFieldsDiffer]

/-- setpointsChanged only reads the stored record of the flow state. -/
theorem setpointsChanged_congr (st1 st2 : FlowState) (log : SetpointLog)
    (h : st1.last_setpoint_log = st2.last_setpoint_log) :
    setpointsChanged st1 log = setpointsChanged st2 log := by
  simp [setpointsChanged, h]

/-- For the shipped configuration, the logger-side threshold resolution
agrees with the engine-side one except in exactly one situation: midday
mode, poor weather, super-heat off, where the logger picks the midday
poor-weather triple and the engine the midday base triple. -/
theorem resolve_compare (g : Globals) (hour : Nat) :
    resolveLogger config g hour (assessWeatherConditions g.weather) =
      (resolveEngine config g hour).2 ∨
    (getTimeBasedMode hour = ModeName.midday ∧ jsOrInt g.super_heat 0 ≠ 1 ∧
      (assessWeatherConditions g.weather).poor_solar = true ∧
      resolveLogger config g hour (assessWeatherConditions g.weather) = ⟨40, 25, 42⟩ ∧
      (resolveEngine config g hour).2 = ⟨40, 25, 32⟩) := by
  by_cases hsh : jsOrInt g.super_heat 0 = 1
  · left
    simp [resolveLogger, resolveEngine, hsh]
  · by_cases hp : (assessWeatherConditions g.weather).poor_solar = true
    · cases hmode : getTimeBasedMode hour <;>
        first
          | (left
             simp [resolveLogger, resolveEngine, hsh, hp, hmode]
             done)
          | (right
             refine ⟨rfl, hsh, hp, ?_, ?_⟩
             · simp [resolveLogger, hsh, hp, hmode, config, configModes]
             · simp [resolveEngine, hsh, hp, hmode, config, configModes])
    · left
      simp [resolveLogger, resolveEngine, hsh, hp]

/-!
### Claim theorems
-/

/-- Claim C1 (counterexample): at noon with an overcast forecast and no
overrides, the emitted setpoint log records the midday poor-weather triple
(40, 25, 42) while the switch-decision engine resolves the midday base
triple (40, 25, 32) in the same invocation, so the logged thresholds do not
equal the engine thresholds. -/
theorem c1_counterexample :
    ((runInvocation config c1G c1M 1000000000 12 initialFlowState).setpointLog.map
      logThresholds) = some ⟨40, 25, 42⟩ ∧
    (resolveEngine config c1G 12).2 = ⟨40, 25, 32⟩ := by
  decide

/-- Claim C1 (amended): the threshold triple recorded in any emitted
setpoint log equals the triple resolved by the switch-decision engine in
the same invocation, except when the mode is midday, super-heat is off and
the weather is classified poor, in which case the log records the midday
poor-weather triple (40, 25, 42) while the engine uses the midday base
triple (40, 25, 32). -/
theorem c1_logger_engine_thresholds (g : Globals) (m : Msg) (now : Int)
    (hour : Nat) (st : FlowState) (r : SetpointLog)
    (h : (runInvocation config g m now hour st).setpointLog = some r) :
    logThresholds r = (resolveEngine config g hour).2 ∨
    (getTimeBasedMode hour = ModeName.midday ∧ jsOrInt g.super_heat 0 ≠ 1 ∧
      (assessWeatherConditions g.weather).poor_solar = true ∧
      logThresholds r = ⟨40, 25, 42⟩ ∧
      (resolveEngine config g hour).2 = ⟨40, 25, 32⟩) := by
  by_cases hrl : ((now - jsOrInt st.last_controller_run 0 : Int) : ℚ) <
      config.controller_interval_seconds * 1000
  · simp only [runInvocation, if_pos hrl] at h
    exact Option.noConfusion h
  · simp only [runInvocation, if_neg hrl] at h
    have hb := loggingBlock_emits config g _ now hour _ _ r h
    have ht := buildSetpointLog_triple config g _ now hour _ r hb
    rw [ht]
    exact resolve_compare g hour

/-- Claim C1 witness: the amended statement at the counterexample input. -/
theorem c1_logger_engine_thresholds_witness :
    logThresholds c1Log = (resolveEngine config c1G 12).2 ∨
    (getTimeBasedMode 12 = ModeName.midday ∧ jsOrInt c1G.super_heat 0 ≠ 1 ∧
      (assessWeatherConditions c1G.weather).poor_solar = true ∧
      logThresholds c1Log = ⟨40, 25, 42⟩ ∧
      (resolveEngine config c1G 12).2 = ⟨40, 25, 32⟩) :=
  c1_logger_engine_thresholds c1G c1M 1000000000 12 initialFlowState c1Log (by decide)

/-- Claim C2 (counterexample): with s3 the string "not a number" the
controller emits no element command, yet a setpoint log record is still
emitted, contradicting the claim that no setpoint log is emitted on
non-numeric input. -/
theorem c2_counterexample :
    (runInvocation config exG0 c2M 1000000000 12 initialFlowState).command = none ∧
    ((runInvocation config exG0 c2M 1000000000 12 initialFlowState).setpointLog).isSome =
      true := by
  decide

/-- Claim C2 (amended): a missing or non-numeric s2/s3/s4 always suppresses
the element command, but the setpoint-log path's own validity check only
tests for undefined fields, so the log record is suppressed exactly when a
sensor field is undefined, not when it is a defined non-numeric value. -/
theorem c2_invalid_sensor_guards (g : Globals) (m : Msg) (now : Int)
    (hour : Nat) (st : FlowState) :
    (¬ (m.s2.isNum = true ∧ m.s3.isNum = true ∧ m.s4.isNum = true) →
      (runInvocation config g m now hour st).command = none) ∧
    ((m.s2 = JsVal.undef ∨ m.s3 = JsVal.undef ∨ m.s4 = JsVal.undef) →
      (runInvocation config g m now hour st).setpointLog = none) := by
  constructor
  · intro hv
    by_cases hrl : ((now - jsOrInt st.last_controller_run 0 : Int) : ℚ) <
        config.controller_interval_seconds * 1000
    · simp only [runInvocation, if_pos hrl]
    · simp only [runInvocation, if_neg hrl]
      exact mainLogic_invalid config g m now hour _ hv
  · intro hu
    have hv : ¬ (m.s2.isNum = true ∧ m.s3.isNum = true ∧ m.s4.isNum = true) := by
      rcases hu with h | h | h <;> rw [h] <;> simp [JsVal.isNum]
    by_cases hrl : ((now - jsOrInt st.last_controller_run 0 : Int) : ℚ) <
        config.controller_interval_seconds * 1000
    · simp only [runInvocation, if_pos hrl]
    · simp only [runInvocation, if_neg hrl]
      rw [mainLogic_invalid config g m now hour _ hv]
      simp only [payloadAfter]
      rw [loggingBlock_none_build config g m now hour _ _
        (buildSetpointLog_none config g m now hour _ hu)]

/-- Claim C2 witness: the amended statement at a non-numeric and at an
undefined s3. -/
theorem c2_invalid_sensor_guards_witness :
    (runInvocation config exG0 c2M 1000000000 12 initialFlowState).command = none ∧
    (runInvocation config exG0 c2MU 1000000000 12 initialFlowState).setpointLog = none :=
  ⟨(c2_invalid_sensor_guards exG0 c2M 1000000000 12 initialFlowState).1 (by decide),
   (c2_invalid_sensor_guards exG0 c2MU 1000000000 12 initialFlowState).2 (by decide)⟩

/-- Claim C3: over any sequence of invocations, any two consecutively
emitted element commands (of either polarity, in either order) are
separated by at least min_switch_interval_minutes of wall-clock time; both
gates measure against the same single element-switch timestamp. -/
theorem c3_anti_cycling (cfg : Config) (st : FlowState) (invs : List Invocation)
    (a b d : List (Int × Option Command)) (t1 t2 : Int) (c1 c2 : Command)
    (htr : runTrace cfg st invs = a ++ (t1, some c1) :: (b ++ (t2, some c2) :: d))
    (hb : ∀ p ∈ b, p.2 = (none : Option Command)) :
    cfg.min_switch_interval_minutes ≤ ((t2 - t1 : Int) : ℚ) / (1000 * 60) := by
  revert htr
  induction invs generalizing st a with
  | nil =>
    intro htr
    simp [runTrace] at htr
  | cons i rest ih =>
    intro htr
    rw [runTrace_cons] at htr
    cases a with
    | nil =>
      rw [List.nil_append] at htr
      injection htr with hhead htail
      have hc : (runInvocation cfg i.g i.m i.now i.hour st).command = some c1 :=
        congrArg Prod.snd hhead
      have hstamp := (cmdSome_spec cfg i.g i.m i.now i.hour st c1 hc).2
      have hn : i.now = t1 := congrArg Prod.fst hhead
      exact gap_after_emit cfg rest _ t1 b d t2 c2 (by rw [hstamp, hn]) htail hb
    | cons p a2 =>
      rw [List.cons_append] at htr
      injection htr with _ htail
      exact ih _ a2 htail

/-- Claim C3 witness: a concrete two-invocation trace with an ON followed
20 minutes later by an OFF. -/
theorem c3_anti_cycling_witness :
    config.min_switch_interval_minutes ≤
      ((1000002200000 - 1000001000000 : Int) : ℚ) / (1000 * 60) :=
  c3_anti_cycling config initialFlowState [c3Inv1, c3Inv2] [] [] []
    1000001000000 1000002200000 Command.on Command.off (by decide) (by simp)

/-- Claim C4: the controller emits the ON command only when s4 is numeric
and strictly below the switch_on_s4_temp of the thresholds resolved by the
switch-decision engine for that invocation. -/
theorem c4_safety_interlock (g : Globals) (m : Msg) (now : Int) (hour : Nat)
    (st : FlowState)
    (h : (runInvocation config g m now hour st).command = some Command.on) :
    jsLtNum m.s4 (resolveEngine config g hour).2.switch_on_s4_temp = true := by
  by_cases hrl : ((now - jsOrInt st.last_controller_run 0 : Int) : ℚ) <
      config.controller_interval_seconds * 1000
  · simp only [runInvocation, if_pos hrl] at h
    exact Option.noConfusion h
  · simp only [runInvocation, if_neg hrl] at h
    exact mainLogic_on_s4 config g m now hour _ h

/-- Claim C4 witness: the interlock at a concrete ON-emitting invocation. -/
theorem c4_safety_interlock_witness :
    jsLtNum exM0.s4 (resolveEngine config exG0 12).2.switch_on_s4_temp = true :=
  c4_safety_interlock exG0 exM0 1000001000000 12 initialFlowState (by decide)

/-- Claim C5: the weather classifier reports poor conditions exactly when
cloud cover exceeds 95 and irradiance is below 50, or the forecast label is
overcast; and a throwing weather read yields poor = false with zeroed
fields and an unknown forecast. -/
theorem c5_weather_classifier (r : Except Unit WeatherGlobals) :
    ((assessWeatherConditions r).poor_solar = true ↔
      ∃ gw, r = Except.ok gw ∧
        ((jsOrNum gw.weather_cloud_cover 0 > 95 ∧
            jsOrNum gw.weather_solar_irradiance 0 < 50) ∨
          jsOrStr gw.weather_forecast_next_6h ("unknown") = "overcast")) ∧
    (r = Except.error () →
      assessWeatherConditions r =
        { poor_solar := false, cloud_cover := 0, irradiance := 0,
          forecast := "unknown" }) := by
  cases r with
  | ok gw =>
    constructor
    · simp only [assessWeatherConditions]
      constructor
      · intro h
        refine ⟨gw, rfl, ?_⟩
        split_ifs at h with h1 h2
        · exact Or.inr h1
        · exact Or.inl h2
      · rintro ⟨gw2, heq, hcond⟩
        injection heq with heq
        subst heq
        split_ifs with h1 h2
        · rfl
        · rfl
        · rcases hcond with hc | hf
          · exact absurd hc h2
          · exact absurd hf h1
    · intro h
      exact Except.noConfusion h
  | error e =>
    constructor
    · constructor
      · intro h
        exact Bool.noConfusion h
      · rintro ⟨gw2, heq, _⟩
        exact Except.noConfusion heq
    · intro _
      cases e
      rfl

/-- Claim C5 witness: the fail-safe clause at a throwing weather read. -/
theorem c5_weather_classifier_witness :
    ((assessWeatherConditions (Except.error ())).poor_solar = true ↔
      ∃ gw, (Except.error () : Except Unit WeatherGlobals) = Except.ok gw ∧
        ((jsOrNum gw.weather_cloud_cover 0 > 95 ∧
            jsOrNum gw.weather_solar_irradiance 0 < 50) ∨
          jsOrStr gw.weather_forecast_next_6h ("unknown") = "overcast")) ∧
    assessWeatherConditions (Except.error ()) =
      { poor_solar := false, cloud_cover := 0, irradiance := 0,
        forecast := "unknown" } :=
  ⟨(c5_weather_classifier (Except.error ())).1,
   (c5_weather_classifier (Except.error ())).2 rfl⟩

/-- Claim C6 (counterexample): with change-only logging enabled, a
first-ever invocation (no stored record, valid sensors, pass proceeds) that
emits a switch command emits no setpoint log record at all: main overwrites
msg.payload with the command before the logging block reads the sensor
fields, so the claim that the first-ever invocation always emits is
false. -/
theorem c6_counterexample :
    initialFlowState.last_setpoint_log = none ∧
    (runInvocation cfgChangeOnly exG0 exM0 1000001000000 12
      initialFlowState).command = some Command.on ∧
    (runInvocation cfgChangeOnly exG0 exM0 1000001000000 12
      initialFlowState).setpointLog = none := by
  decide

/-- Claim C6 (amended): with change-only logging enabled, on a pass that
proceeds: an invocation that emits a switch command emits no setpoint
record and leaves the stored record unchanged (main overwrites msg.payload
with the command before the logging block reads it); an invocation that
emits no command and builds a record behaves as claimed: a first-ever
invocation (no stored record) emits and stores it, a subsequent invocation
emits iff one of the five key fields {mode, switch_off_temp,
switch_on_temp, switch_on_s4_temp, poor_weather_flag} differs from the
stored record, and the stored record is updated exactly when a record is
emitted. -/
theorem c6_change_only_logging (g : Globals) (m : Msg) (now : Int) (hour : Nat)
    (st : FlowState)
    (hrl : ¬ ((now - jsOrInt st.last_controller_run 0 : Int) : ℚ) <
      cfgChangeOnly.controller_interval_seconds * 1000) :
    (∀ c, (runInvocation cfgChangeOnly g m now hour st).command = some c →
      (runInvocation cfgChangeOnly g m now hour st).setpointLog = none ∧
      (runInvocation cfgChangeOnly g m now hour st).state.last_setpoint_log =
        st.last_setpoint_log) ∧
    ((runInvocation cfgChangeOnly g m now hour st).command = none →
      ∀ log, buildSetpointLog cfgChangeOnly g m now hour
          (monitorControlState g { st with last_controller_run := some now }).1 =
            some log →
        (st.last_setpoint_log = none →
          (runInvocation cfgChangeOnly g m now hour st).setpointLog = some log ∧
          (runInvocation cfgChangeOnly g m now hour st).state.last_setpoint_log =
            some log) ∧
        (∀ prev, st.last_setpoint_log = some prev →
          (keyFieldsDiffer prev log →
            (runInvocation cfgChangeOnly g m now hour st).setpointLog = some log ∧
            (runInvocation cfgChangeOnly g m now hour st).state.last_setpoint_log =
              some log) ∧
          (¬ keyFieldsDiffer prev log →
            (runInvocation cfgChangeOnly g m now hour st).setpointLog = none ∧
            (runInvocation cfgChangeOnly g m now hour st).state.last_setpoint_log =
              some prev))) := by
  simp only [runInvocation, if_neg hrl]
  have hst3 : (mainLogic cfgChangeOnly g m now hour
      (monitorControlState g { st with last_controller_run := some now }).2).2.last_setpoint_log
      = st.last_setpoint_log := by
    rcases mainLogic_cases cfgChangeOnly g m now hour
        (monitorControlState g { st with last_controller_run := some now }).2 with
      hml | ⟨c2, hml, _⟩ <;> rw [hml] <;> exact (monitor_preserves g _).2.2
  constructor
  · intro c hcmd
    rw [hcmd]
    rw [loggingBlock_none_build cfgChangeOnly g _ now hour _ _
      (buildSetpointLog_none cfgChangeOnly g _ now hour _ (Or.inl rfl))]
    exact ⟨rfl, hst3⟩
  · intro hcmd log hb
    rw [hcmd]
    simp only [payloadAfter]
    rw [loggingBlock_changeOnly cfgChangeOnly rfl rfl g m now hour _ _ log hb]
    rw [setpointsChanged_congr _ st log hst3]
    constructor
    · intro hnone
      rw [setpointsChanged_of_none st log hnone, if_pos rfl]
      exact ⟨rfl, rfl⟩
    · intro prev hprev
      constructor
      · intro hdiff
        rw [(setpointsChanged_some_iff st log prev hprev).2 hdiff, if_pos rfl]
        exact ⟨rfl, rfl⟩
      · intro hnd
        have hf : setpointsChanged st log = false := by
          cases hsc : setpointsChanged st log with
          | false => rfl
          | true => exact absurd ((setpointsChanged_some_iff st log prev hprev).1 hsc) hnd
        rw [hf, if_neg Bool.false_ne_true]
        exact ⟨rfl, hst3.trans hprev⟩

/-- Claim C6 witness: a first-ever, command-free invocation under
change-only logging emits and stores the built record. -/
theorem c6_change_only_logging_witness :
    (runInvocation cfgChangeOnly exG0 c1M 1000000000 12 initialFlowState).setpointLog =
      some c6Log ∧
    (runInvocation cfgChangeOnly exG0 c1M 1000000000 12
      initialFlowState).state.last_setpoint_log = some c6Log :=
  ((c6_change_only_logging exG0 c1M 1000000000 12 initialFlowState (by decide)).2
    (by decide) c6Log (by decide)).1 rfl

/-- Claim C7: when now minus the stored rate-limit timestamp is below the
configured interval the whole pass is skipped (no command, no log record,
flow state untouched); otherwise the pass proceeds and the rate-limit
timestamp ends up set to now whatever else happens. -/
theorem c7_rate_limiter (cfg : Config) (g : Globals) (m : Msg) (now : Int)
    (hour : Nat) (st : FlowState) :
    (((now - jsOrInt st.last_controller_run 0 : Int) : ℚ) <
        cfg.controller_interval_seconds * 1000 →
      runInvocation cfg g m now hour st =
        { command := none, setpointLog := none, state := st }) ∧
    (¬ ((now - jsOrInt st.last_controller_run 0 : Int) : ℚ) <
        cfg.controller_interval_seconds * 1000 →
      (runInvocation cfg g m now hour st).state.last_controller_run = some now) := by
  constructor
  · intro h
    simp only [runInvocation, if_pos h]
  · intro h
    exact proceed_stamps cfg g m now hour st h

/-- Claim C7 witness: a concrete skipped pass and a concrete proceeding
pass. -/
theorem c7_rate_limiter_witness :
    runInvocation config exG0 exM0 5000 12 stRecent =
      { command := none, setpointLog := none, state := stRecent } ∧
    (runInvocation config exG0 exM0 1000000000 12
      initialFlowState).state.last_controller_run = some 1000000000 :=
  ⟨(c7_rate_limiter config exG0 exM0 5000 12 stRecent).1 (by decide),
   (c7_rate_limiter config exG0 exM0 1000000000 12 initialFlowState).2 (by decide)⟩

/-- Claim C8: for every hour the time-based mode resolver returns one of
the configured mode names; being a function of the hour alone, it returns
exactly one mode and the same mode for the same hour within an
invocation. -/
theorem c8_mode_totality (hour : Nat) :
    getTimeBasedMode hour ∈
      [ModeName.morning, ModeName.daytime, ModeName.midday,
        ModeName.evening_prep, ModeName.evening_night] := by
  unfold getTimeBasedMode
  split_ifs <;> simp

/-- Claim C9 (counterexample): an invocation whose switch-off condition
holds but is vetoed by the anti-cycling gate emits no command and leaves
the element-switch timestamp unchanged, yet still changes ControlState
beyond the rate-limit timestamp: the control-state monitor updates the
stored control-mode string. -/
theorem c9_counterexample :
    (runInvocation config c9G exM1 1000000000 12 c9St).command = none ∧
    (runInvocation config c9G exM1 1000000000 12 c9St).state.last_element_switch_time =
      c9St.last_element_switch_time ∧
    (runInvocation config c9G exM1 1000000000 12 c9St).state.last_hws_control_state ≠
      c9St.last_hws_control_state := by
  decide

/-- Claim C9 (amended): when the anti-cycling gate would veto (the stored
element-switch timestamp is less than the interval old), the invocation
emits no command and leaves both the element-switch timestamp and the
stored last setpoint record unchanged; the control-state monitor may still
update the stored control-mode string, and the rate-limit timestamp is
updated on proceed. -/
theorem c9_veto_preserves (g : Globals) (m : Msg) (now : Int) (hour : Nat)
    (st : FlowState)
    (hgate : ((now - jsOrInt st.last_element_switch_time 0 : Int) : ℚ) / (1000 * 60) <
      config.min_switch_interval_minutes) :
    (runInvocation config g m now hour st).command = none ∧
    (runInvocation config g m now hour st).state.last_element_switch_time =
      st.last_element_switch_time ∧
    (runInvocation config g m now hour st).state.last_setpoint_log =
      st.last_setpoint_log := by
  have hc : (runInvocation config g m now hour st).command = none := by
    cases hcmd : (runInvocation config g m now hour st).command with
    | none => rfl
    | some c =>
      have hge := (cmdSome_spec config g m now hour st c hcmd).1
      exact absurd hgate (not_lt.mpr hge)
  exact ⟨hc, cmdNone_spec config g m now hour st hc, stored_log_const g m now hour st⟩

/-- Claim C9 witness: the amended statement at the counterexample input. -/
theorem c9_veto_preserves_witness :
    (runInvocation config c9G exM1 1000000000 12 c9St).command = none ∧
    (runInvocation config c9G exM1 1000000000 12 c9St).state.last_element_switch_time =
      c9St.last_element_switch_time ∧
    (runInvocation config c9G exM1 1000000000 12 c9St).state.last_setpoint_log =
      c9St.last_setpoint_log :=
  c9_veto_preserves c9G exM1 1000000000 12 c9St (by decide)

/-- Claim C10: when the shared relay-state variable is absent or falsy it
defaults to 0, so the controller can never emit the OFF command in that
situation, while the ON command can still be emitted when the switch-on
conditions hold (shown at a concrete input with the variable absent). -/
theorem c10_unknown_relay :
    (∀ (g : Globals) (m : Msg) (now : Int) (hour : Nat) (st : FlowState),
      (g.hot_water_element = none ∨ g.hot_water_element = some 0) →
      (runInvocation config g m now hour st).command ≠ some Command.off) ∧
    (runInvocation config c10G exM0 1000000000 12 initialFlowState).command =
      some Command.on := by
  constructor
  · intro g m now hour st hrel hoff
    have h1 : jsOrInt g.hot_water_element 0 = 1 := by
      by_cases hrl : ((now - jsOrInt st.last_controller_run 0 : Int) : ℚ) <
          config.controller_interval_seconds * 1000
      · simp only [runInvocation, if_pos hrl] at hoff
        exact Option.noConfusion hoff
      · simp only [runInvocation, if_neg hrl] at hoff
        exact mainLogic_off_relay config g m now hour _ hoff
    rcases hrel with h | h <;> rw [h] at h1 <;> exact absurd h1 (by decide)
  · decide

/-- Claim C10 witness: no OFF command with the relay-state variable
absent. -/
theorem c10_unknown_relay_witness :
    (runInvocation config c10G exM1 1000000000 12 initialFlowState).command ≠
      some Command.off :=
  c10_unknown_relay.1 c10G exM1 1000000000 12 initialFlowState (Or.inl rfl)

end SolarHWS
